import Mathlib

/-
  Verification development for the FunctionGenerator firmware sketches.

  The repository holds three variants of the same Arduino sketch.  The most
  complete variant (src/unnamed/part_000) carries the menu state machine, the
  step editor, the debounced frequency commit and the EEPROM record; an older
  variant (src/unnamed/part_001) is embedded here for its Home and Menu
  rotation handlers, which differ.  Machine integers are modelled as Nat with
  explicit reductions modulo 2^32 (unsigned long) or 2^8 (byte); reads of a
  32-bit value through a signed lens are modelled by toLong, and stores of a
  signed value into 32-bit storage by toU32.
-/

/-- Width of an AVR unsigned long, 2 to the 32. -/
def U32 : Nat := 4294967296

/-- Global maxFreq = 1000000 from part_000 and part_001. -/
def maxFreq : Nat := 1000000

/-- Global maxFreqStep = 100000 from part_000. -/
def maxFreqStep : Nat := 100000

/-- Global encFreqStep = 1000, the default increment per encoder tick. -/
def encFreqStep : Nat := 1000

/-- Global freqUpdateDelay = 400 ms, the debounce window of part_000. -/
def freqUpdateDelay : Nat := 400

/-- channelFreqs[0] = 10000 in part_000. -/
def channelFreq0 : Nat := 10000

/-- channelFreqs[1] = 1000 in part_000. -/
def channelFreq1 : Nat := 1000

/-- RotaryEncoder direction values: NOROTATION, CLOCKWISE, COUNTERCLOCKWISE. -/
inductive Direction
  | noRotation
  | clockwise
  | counterclockwise
deriving DecidableEq

/-- Waveform enum of the sketches: SIN, CLK, TRI. -/
inductive Waveform
  | SIN
  | CLK
  | TRI
deriving DecidableEq

/-- OutputStatus enum of the sketches: OFF, ON. -/
inductive OutputStatus
  | OFF
  | ON
deriving DecidableEq

/-- The MD_AD9833 mode identifiers the sketches send with setMode. -/
inductive ADMode
  | MODE_OFF
  | MODE_SINE
  | MODE_SQUARE1
  | MODE_TRIANGLE
deriving DecidableEq

/-- Commands sent to the signal generator peripheral (fire and forget). -/
inductive Event
  | setFrequency (channel : Bool) (freq : Nat)
  | setMode (m : ADMode)
deriving DecidableEq

/-- The persisted Settings struct of part_000: two unsigned long frequencies,
an unsigned long freqStep, a Waveform byte, a bool channel and a checksum
byte.  Field values are Nat; theorems carry the 32-bit range side conditions
that the C types impose. -/
structure Settings where
  frequency0 : Nat
  frequency1 : Nat
  freqStep : Nat
  waveform : Waveform
  channel : Bool
  checksum : Nat
deriving DecidableEq

/-- The static initializer of the settings global in part_000:
channelFreqs[0], channelFreqs[1], encFreqStep, SIN, channel 0, checksum 0. -/
def initSettings : Settings :=
  ⟨channelFreq0, channelFreq1, encFreqStep, Waveform.SIN, false, 0⟩

/-- Read settings.frequency[c]. -/
def Settings.freqAt (s : Settings) (c : Bool) : Nat :=
  if c then s.frequency1 else s.frequency0

/-- Write settings.frequency[c]. -/
def Settings.setFreqAt (s : Settings) (c : Bool) (v : Nat) : Settings :=
  if c then { s with frequency1 := v } else { s with frequency0 := v }

/-- settings.frequency[settings.channel], the active channel frequency. -/
def activeFreq (s : Settings) : Nat := s.freqAt s.channel

/-- The mutable globals of part_000 that the debounce logic touches:
the settings record, the isFrequencyDirty flag and lastFreqUpdate. -/
structure SysState where
  settings : Settings
  isFrequencyDirty : Bool
  lastFreqUpdate : Nat
deriving DecidableEq

/-- The state at entry to loop: settings from its static initializer,
isFrequencyDirty = 1 (line 74 of part_000), lastFreqUpdate zero initialized. -/
def initState : SysState := ⟨initSettings, true, 0⟩

/-- C conversion of a 32-bit unsigned value to long (two's complement wrap,
as avr-gcc implements it). -/
def toLong (n : Nat) : Int :=
  if n % U32 < 2147483648 then ((n % U32 : Nat) : Int)
  else ((n % U32 : Nat) : Int) - (U32 : Int)

/-- C conversion of a long value to unsigned long (reduction modulo 2^32). -/
def toU32 (v : Int) : Nat := (v % (U32 : Int)).toNat

/-- The u32 subtraction millis() - lastFreqUpdate of part_000 line 216. -/
def elapsedU32 (now last : Nat) : Nat :=
  (now % U32 + (U32 - last % U32)) % U32

/-- crc8block inner loop body of part_000 lines 795-796: one shift of the
running CRC, XORing the polynomial 0x31 when the top bit is set. -/
def crc8round (crc : Nat) : Nat :=
  if crc &&& 0x80 ≠ 0 then ((crc <<< 1) ^^^ 0x31) % 256 else (crc <<< 1) % 256

/-- One iteration of the while loop of crc8block: XOR the next byte into the
CRC, then run the 8-step shift loop. -/
def crc8byte (crc b : Nat) : Nat := crc8round^[8] ((crc ^^^ b) % 256)

/-- crc8block of part_000 lines 787-800: CRC-8, polynomial 0x31, initial
value 0xFF, no final XOR, most significant bit first. -/
def crc8block (pcBlock : List Nat) : Nat := pcBlock.foldl crc8byte 0xFF

/-- Reference shift step written from the words of the specification: shift
the running CRC left once, XORing with the polynomial whenever the top bit
is set before the shift. -/
def crc8refStep (crc : Nat) : Nat :=
  if Nat.testBit crc 7 then ((2 * crc) ^^^ 0x31) % 256 else (2 * crc) % 256

/-- Reference per-byte round written from the words of the specification:
XOR the input byte into the running CRC, then shift left 8 times. -/
def crc8refByte (crc b : Nat) : Nat :=
  crc8refStep (crc8refStep (crc8refStep (crc8refStep (crc8refStep
    (crc8refStep (crc8refStep (crc8refStep ((crc ^^^ b) % 256))))))))

/-- Reference checksum written from the words of the specification:
initial value 0xFF, one byte per iteration, no final XOR. -/
def crc8reference (bytes : List Nat) : Nat := bytes.foldl crc8refByte 255

/-- Exact integer model of the avr float expression (unsigned int)log10(n)
used by changeStep: the floor of log base 10, written as a total if chain
covering every 32-bit value.  On the power-of-ten step values the sketch
stores, float log10, pow and round are exact, so this model coincides with
the source on its reachable states. -/
def log10fl (n : Nat) : Nat :=
  if n < 10 then 0
  else if n < 100 then 1
  else if n < 1000 then 2
  else if n < 10000 then 3
  else if n < 100000 then 4
  else if n < 1000000 then 5
  else if n < 10000000 then 6
  else if n < 100000000 then 7
  else if n < 1000000000 then 8
  else 9

/-- changeStep of part_000 lines 598-611: move the step exponent up by one
clamped at log10(maxFreqStep) on clockwise, otherwise down by one with floor
exponent 0, then store round(pow(10, idc)), modelled exactly as 10 ^ idc. -/
def changeStep (rotDir : Direction) (curStep : Nat) : Nat :=
  let idc := log10fl curStep
  let idc2 :=
    if rotDir = Direction.clockwise then
      if idc < log10fl maxFreqStep then idc + 1 else log10fl maxFreqStep
    else
      if 1 < idc then idc - 1 else 0
  10 ^ idc2

/-- setADSigMode of part_000 lines 824-841 as the command it sends. -/
def setADSigModeEvent (curMode : Waveform) : Event :=
  match curMode with
  | Waveform.SIN => Event.setMode ADMode.MODE_SINE
  | Waveform.CLK => Event.setMode ADMode.MODE_SQUARE1
  | Waveform.TRI => Event.setMode ADMode.MODE_TRIANGLE

/-- toggleOutput of part_000 lines 708-716: flip outputStat; if the new
status is OFF send setMode(MODE_OFF), otherwise send the mode of the current
waveform via setADSigMode. -/
def toggleOutput (outputStat : OutputStatus) (waveform : Waveform) :
    OutputStatus × List Event :=
  let newStat :=
    if outputStat = OutputStatus.OFF then OutputStatus.ON else OutputStatus.OFF
  if newStat = OutputStatus.OFF then (newStat, [Event.setMode ADMode.MODE_OFF])
  else (newStat, [setADSigModeEvent waveform])

/-- Numeric value of the Waveform byte enum. -/
def waveformNat : Waveform → Nat
  | Waveform.SIN => 0
  | Waveform.CLK => 1
  | Waveform.TRI => 2

/-- Waveform from a byte value (only 0, 1, 2 are produced by the handlers). -/
def waveformOfNat : Nat → Waveform
  | 0 => Waveform.SIN
  | 1 => Waveform.CLK
  | _ => Waveform.TRI

/-- The Function branch of handleSettingChange in part_000 lines 651-664:
cycle the waveform byte with wrap-around over len = 3 entries, then call
toggleOutput (which flips outputStat and sends a mode command); the final
setWaveform call only moves the LCD cursor and emits no peripheral command.
Returns the new waveform, the new output status and the emitted commands. -/
def handleSettingChangeFunction (rotDir : Direction) (waveform : Waveform)
    (outputStat : OutputStatus) : Waveform × OutputStatus × List Event :=
  let len := 3
  let wfN := waveformNat waveform
  let wfN2 :=
    if rotDir = Direction.clockwise then
      if wfN + 1 < len then wfN + 1 else 0
    else if rotDir = Direction.counterclockwise then
      if 0 < wfN then wfN - 1 else len - 1
    else wfN
  let wf2 := waveformOfNat wfN2
  let r := toggleOutput outputStat wf2
  (wf2, r.1, r.2)

/-- changeMenu of part_000 lines 618-638 on the curMenuSel byte, with
arrLen = 4: clockwise moves up clamped below arrLen - 1, counterclockwise
moves down clamped at 0; enum arithmetic is byte arithmetic. -/
def changeMenu (rotDir : Direction) (curMenuSel : Nat) : Nat :=
  let arrLen := 4
  if rotDir = Direction.clockwise then
    if curMenuSel < arrLen - 1 then (curMenuSel + 1) % 256 else 3
  else if rotDir = Direction.counterclockwise then
    if 0 < curMenuSel then (curMenuSel - 1) % 256 else 0
  else curMenuSel

/-- resetSettings of part_000 lines 885-896, kept assignment by assignment:
frequency[0] is assigned channelFreqs[0] and then immediately reassigned
channelFreqs[1]; frequency[1] is never assigned; waveform is set to CLK. -/
def resetSettings (s : Settings) : Settings :=
  let s1 := { s with frequency0 := channelFreq0 }
  let s2 := { s1 with frequency0 := channelFreq1 }
  let s3 := { s2 with freqStep := encFreqStep }
  let s4 := { s3 with waveform := Waveform.CLK }
  { s4 with channel := false }

/-- A concrete corrupted record as read from EEPROM before the reset. -/
def corruptedSettings : Settings :=
  ⟨123456, 999999, 7, Waveform.TRI, true, 77⟩

namespace P1

/-- encFreqStep = 1000 of part_001 (an unsigned int, never modified). -/
def encFreqStep : Nat := 1000

/-- The HOME_PAGE branch of encRotate in part_001 lines 457-477, acting on
the stored 32-bit frequency value.  The value is read through a pointer of
type long, the step is added or subtracted in long arithmetic, the upper
comparison against the unsigned maxFreq is unsigned, and the lower branch
stores 0 when the new value is not positive. -/
def encRotateHome (rotDir : Direction) (cur : Nat) : Nat :=
  if rotDir = Direction.counterclockwise then
    let newFreq : Int := toLong cur + (encFreqStep : Int)
    if toU32 newFreq < maxFreq then toU32 newFreq else maxFreq
  else if rotDir = Direction.clockwise then
    let newFreq : Int := toLong cur - (encFreqStep : Int)
    if 0 < newFreq then toU32 newFreq else 0
  else cur

/-- The MENU branch of encRotate in part_001 lines 481-501 on the curMenuSel
byte, with arrLen = 4.  The counterclockwise branch increments clamped below
arrLen - 1; the clockwise branch guards with curMenuSel > 0 but then also
assigns curMenuSel + 1. -/
def encRotateMenu (rotDir : Direction) (curMenuSel : Nat) : Nat :=
  let arrLen := 4
  if rotDir = Direction.counterclockwise then
    if curMenuSel < arrLen - 1 then (curMenuSel + 1) % 256 else arrLen - 1
  else if rotDir = Direction.clockwise then
    if 0 < curMenuSel then (curMenuSel + 1) % 256 else 0
  else curMenuSel

end P1

/-- changeFreq of part_000 lines 570-591 together with the staging globals
it writes (lines 585-588): on clockwise the step is added in unsigned long
arithmetic and the result clamped at maxFreq; on counterclockwise the step
is subtracted in unsigned long arithmetic, the difference is inspected
through long (signed) eyes, and a non-positive difference is replaced by
freqStep; in every case lastFreqUpdate is set to the current millis value
and isFrequencyDirty is raised.  The argument now is the millis value at
the rotation. -/
def changeFreq (rotDir : Direction) (now : Nat) (st : SysState) : SysState :=
  let s := st.settings
  let cur := activeFreq s
  let s2 :=
    if rotDir = Direction.clockwise then
      let newFreq := (cur + s.freqStep) % U32
      s.setFreqAt s.channel (if newFreq < maxFreq then newFreq else maxFreq)
    else if rotDir = Direction.counterclockwise then
      let newFreq := toLong ((cur + (U32 - s.freqStep % U32)) % U32)
      s.setFreqAt s.channel (if 0 < newFreq then toU32 newFreq else s.freqStep)
    else s
  { st with settings := s2, lastFreqUpdate := now % U32,
            isFrequencyDirty := true }

/-- A finite sequence of Home frame rotations, each with the millis value at
which it is handled. -/
def runHomeRotations (st : SysState) (evs : List (Direction × Nat)) :
    SysState :=
  evs.foldl (fun acc e => changeFreq e.1 e.2 acc) st

/-- The RUNNING_FREQUENCY fragment of loop in part_000 lines 213-222: when
isFrequencyDirty is set and millis() - lastFreqUpdate exceeds
freqUpdateDelay, send setFrequency for the active channel and clear the
flag; otherwise do nothing. -/
def loopFreqTick (st : SysState) (now : Nat) : SysState × List Event :=
  if st.isFrequencyDirty then
    if freqUpdateDelay < elapsedU32 now st.lastFreqUpdate then
      ({ st with isFrequencyDirty := false },
       [Event.setFrequency st.settings.channel (activeFreq st.settings)])
    else (st, [])
  else (st, [])

/-- Successive loop iterations, keeping the commands they emit in order. -/
def runTicks (st : SysState) (ts : List Nat) : SysState × List Event :=
  match ts with
  | [] => (st, [])
  | t :: rest =>
    let r := loopFreqTick st t
    let r2 := runTicks r.1 rest
    (r2.1, r.2 ++ r2.2)

/-- Little endian byte image of an unsigned long, as laid out on AVR. -/
def u32bytes (n : Nat) : List Nat :=
  [n % 256, n / 256 % 256, n / 65536 % 256, n / 16777216 % 256]

/-- Reassemble an unsigned long from its four little endian bytes. -/
def u32ofBytes (b0 b1 b2 b3 : Nat) : Nat :=
  b0 + 256 * b1 + 65536 * b2 + 16777216 * b3

/-- The first sizeof(Settings) - 1 = 14 bytes of the packed AVR image of the
Settings struct: the three unsigned longs, the waveform byte and the channel
byte, everything except the trailing checksum byte. -/
def settingsBody (s : Settings) : List Nat :=
  u32bytes s.frequency0 ++ u32bytes s.frequency1 ++ u32bytes s.freqStep ++
    [waveformNat s.waveform, if s.channel then 1 else 0]

/-- The full 15-byte packed AVR image of the Settings struct. -/
def settingsBytes (s : Settings) : List Nat :=
  settingsBody s ++ [s.checksum % 256]

/-- Rebuild a Settings value from the 15 bytes eeprom_read_block copies into
the struct.  The C code trusts the waveform and channel bytes to be valid
enum and bool values; bytes outside those ranges are rejected here, which
never happens on a record produced by writeToEEPROM. -/
def parseSettings (bytes : List Nat) : Option Settings :=
  match bytes with
  | [a0, a1, a2, a3, b0, b1, b2, b3, c0, c1, c2, c3, w, ch, ck] =>
    if w < 3 ∧ ch < 2 then
      some ⟨u32ofBytes a0 a1 a2 a3, u32ofBytes b0 b1 b2 b3,
            u32ofBytes c0 c1 c2 c3, waveformOfNat w, ch == 1, ck⟩
    else none
  | _ => none

/-- writeToEEPROM of part_000 lines 770-778: recompute the CRC8 over the
first sizeof(Settings) - 1 bytes, store it in the checksum field, and write
the whole record.  Returns the record as saved and the bytes written. -/
def writeToEEPROM (s : Settings) : Settings × List Nat :=
  let checksum := crc8block ((settingsBytes s).take 14)
  let s2 := { s with checksum := checksum }
  (s2, settingsBytes s2)

/-- readFromEEPROM of part_000 lines 754-765 over byte-exact storage: copy
the stored bytes into the struct, recompute the CRC8 over the first
sizeof(Settings) - 1 bytes, and succeed exactly when it matches the stored
checksum byte. -/
def readFromEEPROM (bytes : List Nat) : Option Settings :=
  match parseSettings bytes with
  | some s =>
      if crc8block ((settingsBytes s).take 14) = s.checksum then some s
      else none
  | none => none

/-- Supporting lemma: one crc8round application equals one reference step. -/
theorem crc8round_eq_refStep (c : Nat) : crc8round c = crc8refStep c := by
  unfold crc8round crc8refStep
  have hbit : (c &&& 0x80 ≠ 0) ↔ Nat.testBit c 7 := by
    have h := Nat.and_two_pow c 7
    norm_num at h
    rw [h]
    cases hc : Nat.testBit c 7 <;> simp [hc]
  have hshift : c <<< 1 = 2 * c := by
    rw [Nat.shiftLeft_eq]
    ring
  rw [hshift]
  by_cases hb : Nat.testBit c 7
  · rw [if_pos (hbit.mpr hb), if_pos hb]
  · rw [if_neg (fun h => hb (hbit.mp h)), if_neg hb]

/-- Supporting lemma: one byte round of crc8block equals the reference. -/
theorem crc8byte_eq_refByte (c b : Nat) : crc8byte c b = crc8refByte c b := by
  show crc8round^[8] ((c ^^^ b) % 256) = _
  have h8 : crc8round^[8] ((c ^^^ b) % 256) =
      crc8round (crc8round (crc8round (crc8round (crc8round (crc8round
        (crc8round (crc8round ((c ^^^ b) % 256)))))))) := rfl
  rw [h8]
  unfold crc8refByte
  simp only [crc8round_eq_refStep]

/-- Claim C5: crc8block computes exactly the 8-bit CRC with polynomial 0x31,
initial value 0xFF, no final XOR, most significant bit first, one byte per
iteration: it agrees with the reference definition written from the
specification on every byte list. -/
theorem crc8block_matches_reference (bytes : List Nat) :
    crc8block bytes = crc8reference bytes := by
  unfold crc8block crc8reference
  have general : ∀ (l : List Nat) (a : Nat),
      l.foldl crc8byte a = l.foldl crc8refByte a := by
    intro l
    induction l with
    | nil => intro a; rfl
    | cons x xs ih =>
      intro a
      simp only [List.foldl_cons, crc8byte_eq_refByte]
      exact ih _
  exact general bytes 255

/-- Claim C6: from step 1, five clockwise rotations in the step editor give
10, 100, 1000, 10000, 100000 in that order, a further clockwise rotation is
clamped at maxFreqStep, and the counterclockwise sequence returns through
10000, 1000, 100, 10 to 1 and never below 1; every value is a power of ten. -/
theorem step_sequence_values :
    changeStep Direction.clockwise 1 = 10 ∧
    changeStep Direction.clockwise 10 = 100 ∧
    changeStep Direction.clockwise 100 = 1000 ∧
    changeStep Direction.clockwise 1000 = 10000 ∧
    changeStep Direction.clockwise 10000 = 100000 ∧
    changeStep Direction.clockwise 100000 = maxFreqStep ∧
    changeStep Direction.counterclockwise 100000 = 10000 ∧
    changeStep Direction.counterclockwise 10000 = 1000 ∧
    changeStep Direction.counterclockwise 1000 = 100 ∧
    changeStep Direction.counterclockwise 100 = 10 ∧
    changeStep Direction.counterclockwise 10 = 1 ∧
    changeStep Direction.counterclockwise 1 = 1 := by
  decide

/-- Claim C9: with output Off and waveform Sine, one toggle turns the output
On and sends setMode(MODE_SINE); a second toggle turns it Off and sends
setMode(MODE_OFF). -/
theorem toggle_output_scenario :
    toggleOutput OutputStatus.OFF Waveform.SIN =
      (OutputStatus.ON, [Event.setMode ADMode.MODE_SINE]) ∧
    toggleOutput OutputStatus.ON Waveform.SIN =
      (OutputStatus.OFF, [Event.setMode ADMode.MODE_OFF]) := by
  decide

/-- Claim C8 (code bug evaluation): in the Setting frame with curMenuSel =
Function, output On and waveform Sine, one clockwise rotation advances the
waveform to CLK but also flips the output status to OFF and sends
setMode(MODE_OFF), because the handler calls toggleOutput unconditionally;
the claim expects the status to stay On and the new waveform mode to be
re-applied. -/
theorem function_rotation_flips_output :
    handleSettingChangeFunction Direction.clockwise Waveform.SIN
      OutputStatus.ON =
      (Waveform.CLK, OutputStatus.OFF, [Event.setMode ADMode.MODE_OFF]) := by
  decide

/-- Claim C4 (code bug evaluation): resetSettings on a corrupted record does
not restore the documented factory defaults: frequency[0] ends at
channelFreqs[1] = 1000 Hz instead of 10 kHz because the second assignment
overwrites the first, frequency[1] keeps the corrupted value 999999, and the
waveform is set to CLK instead of SIN. -/
theorem resetSettings_wrong_defaults :
    resetSettings corruptedSettings =
      ⟨1000, 999999, 1000, Waveform.CLK, false, 77⟩ ∧
    (1000 : Nat) ≠ channelFreq0 ∧
    Waveform.CLK ≠ Waveform.SIN := by
  decide

/-- Claim C3 (code bug evaluation): in part_001, starting from the initial
selection 0, three counterclockwise rotations reach Version = 3 and one
further clockwise rotation yields 4, outside the valid range [0, 3], because
the clockwise branch adds 1 where a decrement is intended. -/
theorem menu_select_escape :
    List.foldl (fun sel d => P1.encRotateMenu d sel) 0
      [Direction.counterclockwise, Direction.counterclockwise,
       Direction.counterclockwise, Direction.clockwise] = 4 ∧
    ¬ (List.foldl (fun sel d => P1.encRotateMenu d sel) 0
      [Direction.counterclockwise, Direction.counterclockwise,
       Direction.counterclockwise, Direction.clockwise] ≤ 3) := by
  decide

/-- Supporting theorem: the corresponding handler of part_000, changeMenu,
does keep the selection inside [0, 3]. -/
theorem changeMenu_stays_in_bounds (d : Direction) (sel : Nat)
    (h : sel ≤ 3) : changeMenu d sel ≤ 3 := by
  rcases d <;> simp only [changeMenu] <;> split_ifs <;> omega

/-- Supporting lemma: setFreqAt does not change the channel field. -/
theorem setFreqAt_channel (s : Settings) (c : Bool) (v : Nat) :
    (s.setFreqAt c v).channel = s.channel := by
  cases c <;> rfl

/-- Supporting lemma: setFreqAt does not change the freqStep field. -/
theorem setFreqAt_freqStep (s : Settings) (c : Bool) (v : Nat) :
    (s.setFreqAt c v).freqStep = s.freqStep := by
  cases c <;> rfl

/-- Supporting lemma: writing the active channel frequency and reading it
back gives the written value. -/
theorem activeFreq_setFreqAt (s : Settings) (v : Nat) :
    activeFreq (s.setFreqAt s.channel v) = v := by
  cases h : s.channel <;>
    simp [Settings.setFreqAt, activeFreq, Settings.freqAt, h]

/-- Supporting lemma: changeFreq does not change freqStep. -/
theorem changeFreq_settings_freqStep (d : Direction) (now : Nat)
    (st : SysState) :
    (changeFreq d now st).settings.freqStep = st.settings.freqStep := by
  rcases d <;> simp [changeFreq, setFreqAt_freqStep]

/-- Supporting lemma: one part_000 changeFreq keeps the active frequency in
the interval (0, maxFreq], given that freqStep is positive and at most
maxFreq. -/
theorem changeFreq_active_bounds (d : Direction) (now : Nat) (st : SysState)
    (h1 : 0 < activeFreq st.settings) (h2 : activeFreq st.settings ≤ maxFreq)
    (h3 : 0 < st.settings.freqStep) (h4 : st.settings.freqStep ≤ maxFreq) :
    0 < activeFreq (changeFreq d now st).settings ∧
      activeFreq (changeFreq d now st).settings ≤ maxFreq := by
  rcases d with _ | _ | _
  · simpa [changeFreq] using ⟨h1, h2⟩
  · simp [changeFreq, activeFreq_setFreqAt]
    simp only [maxFreq, U32] at *
    split_ifs <;> omega
  · simp [changeFreq, activeFreq_setFreqAt, toLong, toU32]
    simp only [maxFreq, U32] at *
    split_ifs <;> omega

/-- Supporting lemma: one part_001 Home rotation keeps the frequency at most
maxFreq (it can reach 0, so only the upper bound survives). -/
theorem encRotateHome_le (d : Direction) (cur : Nat) (h : cur ≤ maxFreq) :
    P1.encRotateHome d cur ≤ maxFreq := by
  rcases d with _ | _ | _ <;>
    simp [P1.encRotateHome, P1.encFreqStep, toLong, toU32] <;>
    simp only [maxFreq, U32] at * <;>
    first
      | omega
      | (split_ifs <;> omega)

/-- Claim C1 (amended): in part_000, for every Settings state whose active
channel frequency lies in (0, maxFreq] and whose freqStep lies in
(0, maxFreq], any finite sequence of Home frame rotations keeps the staged
active frequency in (0, maxFreq]; in part_001, the Home rotation handler
only guarantees the interval [0, maxFreq]: the frequency saturates at
maxFreq above and at 0 below, never wrapping, but it can become exactly 0. -/
theorem freq_bounds_after_rotations :
    (∀ (evs : List (Direction × Nat)) (st : SysState),
        0 < activeFreq st.settings → activeFreq st.settings ≤ maxFreq →
        0 < st.settings.freqStep → st.settings.freqStep ≤ maxFreq →
        0 < activeFreq (runHomeRotations st evs).settings ∧
          activeFreq (runHomeRotations st evs).settings ≤ maxFreq) ∧
    (∀ (dirs : List Direction) (f : Nat), f ≤ maxFreq →
        List.foldl (fun cur d => P1.encRotateHome d cur) f dirs ≤ maxFreq) := by
  constructor
  · intro evs
    induction evs with
    | nil =>
      intro st h1 h2 h3 h4
      exact ⟨h1, h2⟩
    | cons e rest ih =>
      intro st h1 h2 h3 h4
      have hstep := changeFreq_active_bounds e.1 e.2 st h1 h2 h3 h4
      have hfs := changeFreq_settings_freqStep e.1 e.2 st
      have hrec := ih (changeFreq e.1 e.2 st) hstep.1 hstep.2
        (by rw [hfs]; exact h3) (by rw [hfs]; exact h4)
      simpa [runHomeRotations] using hrec
  · intro dirs
    induction dirs with
    | nil =>
      intro f h
      simpa using h
    | cons d rest ih =>
      intro f h
      have hrec := ih (P1.encRotateHome d f) (encRotateHome_le d f h)
      simpa using hrec

/-- Witness for C1: a concrete clockwise rotation from the initial state of
part_000 and a concrete clockwise rotation from 10000 Hz in part_001, both
inside the proved bounds. -/
theorem freq_bounds_after_rotations_witness :
    (0 < activeFreq (runHomeRotations initState
        [(Direction.clockwise, 5)]).settings ∧
      activeFreq (runHomeRotations initState
        [(Direction.clockwise, 5)]).settings ≤ maxFreq) ∧
    List.foldl (fun cur d => P1.encRotateHome d cur) 10000
      [Direction.clockwise] ≤ maxFreq :=
  ⟨freq_bounds_after_rotations.1 [(Direction.clockwise, 5)] initState
      (by decide) (by decide) (by decide) (by decide),
   freq_bounds_after_rotations.2 [Direction.clockwise] 10000 (by decide)⟩

/-- Counterexample for C1 as stated: in part_001, from the in-range
frequency 1000 Hz, a single clockwise Home rotation (step 1000) drives the
staged frequency to exactly 0, which is outside (0, maxFreq]. -/
theorem freq_zero_counterexample :
    (0 < (1000 : Nat) ∧ (1000 : Nat) ≤ maxFreq) ∧
    P1.encRotateHome Direction.clockwise 1000 = 0 := by
  decide

/-- Supporting lemma: in the no-wraparound regime the u32 subtraction
millis() - lastFreqUpdate equals the plain difference. -/
theorem elapsedU32_eq (now last : Nat) (h1 : last ≤ now) (h2 : now < U32) :
    elapsedU32 now last = now - last := by
  unfold elapsedU32 U32 at *
  omega

/-- Supporting lemma: with the dirty flag down, loop iterations neither emit
commands nor change the state. -/
theorem runTicks_not_dirty (st : SysState) (h : st.isFrequencyDirty = false)
    (ts : List Nat) : runTicks st ts = (st, []) := by
  induction ts with
  | nil => rfl
  | cons t rest ih =>
    simp [runTicks, loopFreqTick, h, ih]

/-- Supporting lemma: from a dirty state whose lastFreqUpdate is a valid u32
millis value, a run of loop iterations at times after the staging emits the
setFrequency command for the active channel exactly once, at the first
iteration strictly more than freqUpdateDelay after the staging, and emits
nothing at all if no such iteration occurs; the flag is down afterwards
exactly when the command was sent. -/
theorem runTicks_dirty_spec (st : SysState) (hd : st.isFrequencyDirty = true)
    (ts : List Nat)
    (hts : ∀ n ∈ ts, st.lastFreqUpdate ≤ n ∧ n < U32) :
    ((runTicks st ts).2 =
      if ∃ n ∈ ts, 400 < n - st.lastFreqUpdate then
        [Event.setFrequency st.settings.channel (activeFreq st.settings)]
      else []) ∧
    ((runTicks st ts).1.isFrequencyDirty = false ↔
      ∃ n ∈ ts, 400 < n - st.lastFreqUpdate) := by
  induction ts with
  | nil =>
    simp [runTicks, hd]
  | cons t rest ih =>
    have ht := hts t (List.mem_cons_self t rest)
    have hrest : ∀ n ∈ rest, st.lastFreqUpdate ≤ n ∧ n < U32 :=
      fun n hn => hts n (List.mem_cons_of_mem t hn)
    have helapsed : elapsedU32 t st.lastFreqUpdate = t - st.lastFreqUpdate :=
      elapsedU32_eq t st.lastFreqUpdate ht.1 ht.2
    by_cases hgt : 400 < t - st.lastFreqUpdate
    · have hfire : loopFreqTick st t =
          ({ st with isFrequencyDirty := false },
           [Event.setFrequency st.settings.channel (activeFreq st.settings)]) := by
        simp [loopFreqTick, hd, helapsed, freqUpdateDelay, hgt]
      have hrest2 := runTicks_not_dirty { st with isFrequencyDirty := false }
        rfl rest
      have hcond : ∃ n ∈ t :: rest, 400 < n - st.lastFreqUpdate :=
        ⟨t, List.mem_cons_self t rest, hgt⟩
      have hev : (runTicks st (t :: rest)).2 =
          [Event.setFrequency st.settings.channel (activeFreq st.settings)] := by
        simp [runTicks, hfire, hrest2]
      have hfl : (runTicks st (t :: rest)).1.isFrequencyDirty = false := by
        simp [runTicks, hfire, hrest2]
      rw [hev, hfl, if_pos hcond]
      exact ⟨rfl, ⟨fun _ => hcond, fun _ => rfl⟩⟩
    · have hskip : loopFreqTick st t = (st, []) := by
        simp [loopFreqTick, hd, helapsed, freqUpdateDelay, hgt]
      have hrec := ih hrest
      constructor
      · rw [show (runTicks st (t :: rest)).2 = (runTicks st rest).2 by
          simp [runTicks, hskip]]
        rw [hrec.1]
        by_cases hex : ∃ n ∈ rest, 400 < n - st.lastFreqUpdate
        · have hex2 : ∃ n ∈ t :: rest, 400 < n - st.lastFreqUpdate := by
            obtain ⟨n, hn, hh⟩ := hex
            exact ⟨n, List.mem_cons_of_mem t hn, hh⟩
          rw [if_pos hex, if_pos hex2]
        · have hex2 : ¬ ∃ n ∈ t :: rest, 400 < n - st.lastFreqUpdate := by
            rintro ⟨n, hn, hh⟩
            rcases List.mem_cons.mp hn with h | h
            · exact hgt (h ▸ hh)
            · exact hex ⟨n, h, hh⟩
          rw [if_neg hex, if_neg hex2]
      · rw [show (runTicks st (t :: rest)).1 = (runTicks st rest).1 by
          simp [runTicks, hskip]]
        rw [hrec.2]
        constructor
        · rintro ⟨n, hn, hh⟩
          exact ⟨n, List.mem_cons_of_mem t hn, hh⟩
        · rintro ⟨n, hn, hh⟩
          rcases List.mem_cons.mp hn with h | h
          · exact absurd (h ▸ hh) hgt
          · exact ⟨n, h, hh⟩

/-- Claim C2 (amended): after a staging changeFreq at millis value t, every
loop iteration at now with now - t at most 400 ms does not invoke
setFrequency, and the first iteration with now - t strictly greater than
400 ms invokes it exactly once with the most recently staged value (the
comparison in loop is strict, so an iteration at exactly t + 400 does not
commit); no matter how many loop iterations follow, the command is sent at
most once until a new staging occurs. -/
theorem debounce_commit_strict (d : Direction) (t : Nat) (ht : t < U32)
    (st0 : SysState) (ts : List Nat)
    (hts : ∀ n ∈ ts, t ≤ n ∧ n < U32) :
    ((runTicks (changeFreq d t st0) ts).2 =
      if ∃ n ∈ ts, 400 < n - t then
        [Event.setFrequency (changeFreq d t st0).settings.channel
          (activeFreq (changeFreq d t st0).settings)]
      else []) ∧
    ((runTicks (changeFreq d t st0) ts).1.isFrequencyDirty = false ↔
      ∃ n ∈ ts, 400 < n - t) := by
  have hdirty : (changeFreq d t st0).isFrequencyDirty = true := rfl
  have hlast : (changeFreq d t st0).lastFreqUpdate = t := by
    show t % U32 = t
    exact Nat.mod_eq_of_lt ht
  have h := runTicks_dirty_spec (changeFreq d t st0) hdirty ts
    (by rw [hlast]; exact hts)
  rw [hlast] at h
  exact h

/-- Witness for C2: staging a clockwise rotation at millis 0 from the
initial state, an iteration at 100 ms emits nothing and the iteration at
401 ms commits the staged 11000 Hz exactly once. -/
theorem debounce_commit_strict_witness :
    (runTicks (changeFreq Direction.clockwise 0 initState) [100, 401]).2 =
      [Event.setFrequency false 11000] := by
  have h := (debounce_commit_strict Direction.clockwise 0 (by decide)
      initState [100, 401] (by decide)).1
  rw [h]
  decide

/-- Counterexample for C2 as stated: staging at millis 0 and ticking at
exactly 400 ms satisfies now - t at least 400, yet the loop emits no
setFrequency, because the code compares with strict greater than. -/
theorem debounce_boundary_counterexample :
    (changeFreq Direction.clockwise 0 initState).lastFreqUpdate + 400 ≤ 400 ∧
    (loopFreqTick (changeFreq Direction.clockwise 0 initState) 400).2 = [] := by
  decide

/-- Claim C10: isFrequencyDirty is already true in the initial program
state, so even with no rotation ever staged, a run of loop iterations
invokes setFrequency exactly once with the active channel stored frequency
(channel 0, 10000 Hz) at the first iteration whose millis value exceeds
400 ms, clears the flag there, and emits no further debounce commit. -/
theorem initial_dirty_first_commit (ts : List Nat)
    (hts : ∀ n ∈ ts, n < U32) :
    ((runTicks initState ts).2 =
      if ∃ n ∈ ts, 400 < n then [Event.setFrequency false channelFreq0]
      else []) ∧
    ((runTicks initState ts).1.isFrequencyDirty = false ↔
      ∃ n ∈ ts, 400 < n) := by
  have h := runTicks_dirty_spec initState rfl ts
    (fun n hn => ⟨Nat.zero_le n, hts n hn⟩)
  simpa using h

/-- Witness for C10: a single loop iteration at millis 500 commits
setFrequency(0, 10000) from the initial state. -/
theorem initial_dirty_first_commit_witness :
    (runTicks initState [500]).2 = [Event.setFrequency false channelFreq0] := by
  have h := (initial_dirty_first_commit [500] (by decide)).1
  rw [h]
  decide

/-- Supporting lemma: each CRC shift step yields a byte value. -/
theorem crc8round_lt (c : Nat) : crc8round c < 256 := by
  unfold crc8round
  split_ifs <;> exact Nat.mod_lt _ (by norm_num)

/-- Supporting lemma: each CRC byte round yields a byte value. -/
theorem crc8byte_lt (c b : Nat) : crc8byte c b < 256 := by
  show crc8round^[8] ((c ^^^ b) % 256) < 256
  rw [show (8 : Nat) = 7 + 1 from rfl, Function.iterate_succ_apply']
  exact crc8round_lt _

/-- Supporting lemma: crc8block yields a byte value. -/
theorem crc8block_lt (l : List Nat) : crc8block l < 256 := by
  unfold crc8block
  have general : ∀ (l : List Nat) (a : Nat), a < 256 → l.foldl crc8byte a < 256 := by
    intro l
    induction l with
    | nil => intro a h; simpa using h
    | cons x xs ih =>
      intro a h
      simpa using ih (crc8byte a x) (crc8byte_lt a x)
  exact general l 255 (by norm_num)

/-- Supporting lemma: reassembling the four little endian bytes of an
in-range unsigned long restores the value. -/
theorem u32_roundtrip (n : Nat) (h : n < U32) :
    u32ofBytes (n % 256) (n / 256 % 256) (n / 65536 % 256)
      (n / 16777216 % 256) = n := by
  unfold u32ofBytes U32 at *
  omega

/-- Supporting lemma: the serialized body of a Settings record has the 14
bytes the checksum covers. -/
theorem settingsBody_length (s : Settings) : (settingsBody s).length = 14 := by
  simp [settingsBody, u32bytes]

/-- Supporting lemma: taking the first 14 bytes of the full record image
gives exactly the checksummed body. -/
theorem settingsBytes_take (s : Settings) :
    (settingsBytes s).take 14 = settingsBody s := by
  rw [settingsBytes, ← settingsBody_length s, List.take_left]

/-- Supporting lemma: parsing the serialized image of a record whose fields
are in range restores the record. -/
theorem parse_settingsBytes (s : Settings) (h0 : s.frequency0 < U32)
    (h1 : s.frequency1 < U32) (h2 : s.freqStep < U32) (h3 : s.checksum < 256) :
    parseSettings (settingsBytes s) = some s := by
  obtain ⟨f0, f1, fs, wf, ch, ck⟩ := s
  simp only [settingsBytes, settingsBody, u32bytes, List.cons_append,
    List.nil_append, parseSettings] at *
  rw [if_pos]
  · congr 1
    congr 1
    · exact u32_roundtrip f0 h0
    · exact u32_roundtrip f1 h1
    · exact u32_roundtrip fs h2
    · cases wf <;> rfl
    · cases ch <;> rfl
    · exact Nat.mod_eq_of_lt h3
  · constructor
    · cases wf <;> simp [waveformNat]
    · cases ch <;> simp

/-- Claim C7: for every Settings record (fields in their C ranges), save
followed by load over byte-exact storage succeeds, and yields exactly the
record that was saved, namely the input record with its checksum field
recomputed over the other 14 bytes. -/
theorem eeprom_roundtrip (s : Settings) (h0 : s.frequency0 < U32)
    (h1 : s.frequency1 < U32) (h2 : s.freqStep < U32) :
    readFromEEPROM (writeToEEPROM s).2 = some (writeToEEPROM s).1 := by
  have hc : crc8block ((settingsBytes s).take 14) < 256 := crc8block_lt _
  obtain ⟨c, hcdef⟩ : ∃ c, crc8block ((settingsBytes s).take 14) = c := ⟨_, rfl⟩
  have hparse := parse_settingsBytes { s with checksum := c } h0 h1 h2
    (hcdef ▸ hc)
  have htake : (settingsBytes { s with checksum := c }).take 14 =
      (settingsBytes s).take 14 := by
    rw [settingsBytes_take, settingsBytes_take]
    rfl
  have hread : readFromEEPROM (settingsBytes { s with checksum := c }) =
      some { s with checksum := c } := by
    simp only [readFromEEPROM]
    rw [hparse]
    simp [htake, hcdef]
  simp only [writeToEEPROM]
  rw [hcdef]
  exact hread

/-- Witness for C7: the initial settings record round-trips through the
EEPROM image. -/
theorem eeprom_roundtrip_witness :
    readFromEEPROM (writeToEEPROM initSettings).2 =
      some (writeToEEPROM initSettings).1 :=
  eeprom_roundtrip initSettings (by decide) (by decide) (by decide)
